import Mathlib

/-!
Verification of the viaNexus agent SDK against its specification.

The Python sources are shallowly embedded: Python `str` values are modelled
as `List Char` (one entry per code point, matching Python's character-based
indexing and slicing), dictionaries as association lists, JSON values as an
explicit `Js` tree, and fallible code as `Except`/`Option`.  Exceptions
raised by external collaborators (the MCP tool channel, the vendor SDKs,
PyJWT's `decode`) are modelled as `Except.error` results of oracle
parameters.  Every definition is translated from the corresponding function
in `src/vianexus_agent_sdk`; the source file and symbol are named in each
doc comment.
-/

/-- The set of characters removed by Python's `str.strip()` (ASCII whitespace;
the rarely-relevant non-ASCII Unicode spaces are not used by any input
considered here). -/
def isPySpace (c : Char) : Bool :=
  c == ' ' || c == '\t' || c == '\n' || c == '\r' || c == '\x0b' || c == '\x0c'

/-- Python `str.strip()`: drop leading and trailing whitespace. -/
def pyStrip (l : List Char) : List Char :=
  ((l.dropWhile isPySpace).reverse.dropWhile isPySpace).reverse

/-- Python `str.lower()` (ASCII case folding). -/
def pyLower (l : List Char) : List Char := l.map Char.toLower

/-- Python `s.startswith(pat)`: first argument is the pattern. -/
def startsWithL : List Char → List Char → Bool
  | [], _ => true
  | _ :: _, [] => false
  | p :: ps, c :: cs => p == c && startsWithL ps cs

/-- Python `needle in haystack` substring containment. -/
def containsL : List Char → List Char → Bool
  | [], needle => needle.isEmpty
  | h :: t, needle => startsWithL needle (h :: t) || containsL t needle

/-- Number of UTF-8 bytes of a text payload (Python strings are indexed by
code points; the byte length is what the specification's `100_000 bytes`
phrasing refers to). -/
def utf8Len (l : List Char) : Nat := (l.map Char.utf8Size).sum

/-- `clients/base_llm_client.py`, `BaseLLMClient._validate_question`.
The `isinstance(question, str)` branch is outside the embedding (inputs are
typed as strings); every other branch is translated verbatim.  Note that the
length and null-byte checks run on the *stripped* question. -/
def validate_question (question : List Char) : Except String (List Char) :=
  if question = [] then .error "Question cannot be None or empty"
  else if pyStrip question = [] then .error "Question cannot be empty or whitespace only"
  else if (pyStrip question).length > 100000 then
    .error "Question is too long (max 100,000 characters)"
  else if 0 < (pyStrip question).count '\x00' then .error "Question contains null bytes"
  else .ok (pyStrip question)

/-- `clients/llm_client_factory.py`, `class LLMProvider(Enum)`, in source
order. -/
inductive LLMProvider where
  | anthropic
  | openai
  | gemini
deriving DecidableEq

/-- `clients/llm_client_factory.py`, `LLMClientFactory.MODEL_PATTERNS`.
The pairs are listed in the dictionary's insertion order, which is the order
`detect_provider` iterates them in. -/
def MODEL_PATTERNS : List (LLMProvider × List (List Char)) :=
  [ (.openai, ["gpt-".toList, "o1-".toList, "text-davinci".toList,
               "text-curie".toList, "text-babbage".toList, "text-ada".toList]),
    (.anthropic, ["claude-".toList, "claude_".toList]),
    (.gemini, ["gemini-".toList, "gemini_".toList, "bison".toList, "gecko".toList]) ]

/-- `clients/llm_client_factory.py`, `LLMClientFactory.API_KEY_PATTERNS`.
The pairs are listed in the dictionary's insertion order (OpenAI first),
which is the order `detect_provider` iterates them in. -/
def API_KEY_PATTERNS : List (LLMProvider × List (List Char)) :=
  [ (.openai, ["sk-".toList, "sk_".toList]),
    (.anthropic, ["sk-ant-".toList]),
    (.gemini, ["AI".toList]) ]

/-- `any(name.startswith(pattern.lower()) for pattern in patterns)` from
`detect_provider` step 2 (the model-pattern loop lowercases each pattern). -/
def modelPatternsHit (name : List Char) (pats : List (List Char)) : Bool :=
  pats.any (fun p => startsWithL (pyLower p) name)

/-- `any(api_key.startswith(pattern) for pattern in patterns)` from
`detect_provider` step 3 (API-key patterns are used verbatim). -/
def keyPatternsHit (key : List Char) (pats : List (List Char)) : Bool :=
  pats.any (fun p => startsWithL p key)

/-- The `for provider, patterns in …items()` loops of `detect_provider`:
return the first provider whose pattern list matches. -/
def patternScan (hit : List Char → List (List Char) → Bool) (s : List Char) :
    List (LLMProvider × List (List Char)) → Option LLMProvider
  | [] => none
  | (prov, pats) :: rest =>
      if hit s pats then some prov else patternScan hit s rest

/-- The configuration fields read by `LLMClientFactory.detect_provider`.
`provider` is `none` when the `"provider"` key is absent; `model` and
`apiKey` are `config.get("LLM_MODEL", "")` / `config.get("LLM_API_KEY", "")`;
`reprStr` is Python's `str(config)`, consumed only by the step-4 substring
fallback. -/
structure FactoryConfig where
  provider : Option (List Char)
  model : List Char
  apiKey : List Char
  reprStr : List Char

/-- `clients/llm_client_factory.py`, `LLMClientFactory.detect_provider`
(lines 89-144): explicit `provider` field, then model-name patterns, then
API-key patterns, then the serialized-config substring fallback, else a
`ValueError`. -/
def detect_provider (c : FactoryConfig) : Except String LLMProvider :=
  match c.provider with
  | some p =>
    let pl := pyLower p
    if pl = "anthropic".toList then .ok .anthropic
    else if pl = "openai".toList then .ok .openai
    else if pl = "gemini".toList then .ok .gemini
    else .error "Unknown provider specified"
  | none =>
    let modelName := pyLower c.model
    match (if modelName ≠ [] then patternScan modelPatternsHit modelName MODEL_PATTERNS
           else none) with
    | some prov => .ok prov
    | none =>
      match (if c.apiKey ≠ [] then patternScan keyPatternsHit c.apiKey API_KEY_PATTERNS
             else none) with
      | some prov => .ok prov
      | none =>
        let cl := pyLower c.reprStr
        if containsL cl "anthropic".toList then .ok .anthropic
        else if containsL cl "openai".toList then .ok .openai
        else if containsL cl "gemini".toList then .ok .gemini
        else .error "Cannot detect LLM provider"

/-- A JSON-compatible Python value (dicts as association lists in insertion
order).  Used for JWT payloads, tool arguments and the serialized form of
universal messages.  `json.dumps`/`json.loads` (Python standard library,
outside this repository) are modelled as the identity on this tree. -/
inductive Js where
  | null
  | bool (b : Bool)
  | num (n : Int)
  | str (s : String)
  | arr (elems : List Js)
  | obj (fields : List (String × Js))

/-- Python truthiness of a `Js` value (`if value:`). -/
def jsTruthy : Js → Bool
  | .null => false
  | .bool b => b
  | .num n => n != 0
  | .str s => !s.isEmpty
  | .arr xs => !xs.isEmpty
  | .obj kvs => !kvs.isEmpty

/-- `d.get(k)` on a Python dict: `None` (modelled `Js.null`) when absent. -/
def jsGet (kvs : List (String × Js)) (k : String) : Js :=
  (kvs.lookup k).getD .null

/-- Python `a or b` on `Js` values. -/
def jsOr (a b : Js) : Js := if jsTruthy a then a else b

/-- One element of a list-shaped `result.content`: `withText` models an
object carrying a `.text` attribute, `plain` any other object via its
`str(...)` rendering. -/
inductive PayloadElem where
  | withText (text : List Char)
  | plain (reprStr : List Char)

/-- The `result.content` payload returned by `session.call_tool`: a list of
elements, a dict (with optional `text` / `content` keys and its `str(...)`
rendering), or any other object via `str(...)`. -/
inductive ToolPayload where
  | plist (items : List PayloadElem)
  | pdict (textKey : Option (List Char)) (contentKey : Option (List Char)) (reprStr : List Char)
  | pother (reprStr : List Char)

/-- The text reduction shared verbatim by the three `_execute_tool_calls`
implementations: for a list, `payload[0].text` when present, else
`str(payload[0])`, else `"No content returned"`; for a dict,
`payload.get('text', payload.get('content', str(payload)))`; otherwise
`str(payload)`. -/
def reducePayload : ToolPayload → List Char
  | .plist [] => "No content returned".toList
  | .plist (.withText t :: _) => t
  | .plist (.plain r :: _) => r
  | .pdict (some t) _ _ => t
  | .pdict none (some c) _ => c
  | .pdict none none r => r
  | .pother r => r

/-- Python truthiness of a payload (`if … result.content:` in the Gemini
client).  A modelled dict is taken to be nonempty. -/
def toolPayloadTruthy : ToolPayload → Bool
  | .plist items => !items.isEmpty
  | .pdict _ _ _ => true
  | .pother r => !r.isEmpty

/-- The object returned by `await session.call_tool(name, args)`: its
`.content` attribute plus its own `str(result)` rendering (the latter is
read only by the Gemini client when the content is falsy). -/
structure CallToolResult where
  content : ToolPayload
  resultRepr : List Char

/-- An Anthropic `tool_use` content block (`ToolUseBlock`): `id`, `name`,
`input`. -/
structure ToolUseBlockM where
  id : String
  name : String
  input : Js

/-- `tub.input if isinstance(tub.input, dict) else {}` from
`AnthropicClient._execute_tool_calls`. -/
def anthropicArgs (input : Js) : Js :=
  match input with
  | .obj kvs => .obj kvs
  | _ => .obj []

/-- One entry of the list built by `AnthropicClient._execute_tool_calls`:
the dict `\x7b"type": "tool_result", "tool_use_id": …,
"content": [\x7b"type": "text", "text": …\x7d]\x7d`; the constant `type`
fields are left implicit. -/
structure AnthropicResultBlock where
  tool_use_id : String
  text : List Char
deriving DecidableEq

/-- `clients/anthropic_client.py`, `AnthropicClient._execute_tool_calls`
(lines 381-422).  `callTool` is the MCP channel: `.error e` models
`session.call_tool` raising an exception rendered as the string `e`.  The
success payload is injected untruncated; a failure synthesizes the text
`"Error: " + str(e)` and the loop continues with the next call. -/
def anthropic_execute_tool_calls (callTool : String → Js → Except (List Char) CallToolResult) :
    List ToolUseBlockM → List AnthropicResultBlock
  | [] => []
  | tub :: rest =>
    (match callTool tub.name (anthropicArgs tub.input) with
     | .ok result => ⟨tub.id, reducePayload result.content⟩
     | .error e => ⟨tub.id, "Error: ".toList ++ e⟩)
    :: anthropic_execute_tool_calls callTool rest

/-- One tool call of `OpenAiClient._execute_tool_calls`: an entry of
`tool_calls_by_id` in insertion order, with `function.name` and the raw
`function.arguments` string (its `json.loads` parsing happens inside the
call and is folded into the `callTool` oracle). -/
structure OpenAiToolCall where
  id : String
  name : String
  arguments : List Char

/-- One entry of the list built by `OpenAiClient._execute_tool_calls`: the
dict `\x7b"type": "tool_result", "tool_call_id": …, "content": …\x7d`. -/
structure OpenAiResultBlock where
  tool_call_id : String
  content : List Char
deriving DecidableEq

/-- `clients/openai_client.py`, `OpenAiClient._execute_tool_calls`
(lines 367-413).  On success the reduced text is sliced
`text_payload[:100_000]` (Python slicing counts characters); a failure
synthesizes `"Error calling tool '<name>': <e>"`. -/
def openai_execute_tool_calls (callTool : String → List Char → Except (List Char) CallToolResult) :
    List OpenAiToolCall → List OpenAiResultBlock
  | [] => []
  | c :: rest =>
    (match callTool c.name c.arguments with
     | .ok result => ⟨c.id, (reducePayload result.content).take 100000⟩
     | .error e => ⟨c.id, "Error calling tool \x27".toList ++ c.name.toList
                          ++ "\x27: ".toList ++ e⟩)
    :: openai_execute_tool_calls callTool rest

/-- A Gemini `function_call` part (`tool_call.name`, `tool_call.args`). -/
structure GeminiFunctionCall where
  name : String
  args : Js

/-- `dict(tool_call.args) if tool_call.args else {}` from
`GeminiClient._execute_tool_calls`. -/
def geminiArgs (args : Js) : Js := if jsTruthy args then args else .obj []

/-- The `response=` dict of `genai.types.Part.from_function_response`:
either `\x7b"result": text\x7d` or `\x7b"error": text\x7d`. -/
inductive GeminiFnResponse where
  | result (text : List Char)
  | error (text : List Char)
deriving DecidableEq

/-- One part built by `GeminiClient._execute_tool_calls`:
`Part.from_function_response(name=…, response=…)`. -/
structure GeminiResultPart where
  name : String
  response : GeminiFnResponse
deriving DecidableEq

/-- The Gemini text reduction (`gemini_client.py` lines 419-435): the shared
reduction when `result.content` exists and is truthy, else `str(result)`. -/
def geminiReduce (r : CallToolResult) : List Char :=
  if toolPayloadTruthy r.content then reducePayload r.content else r.resultRepr

/-- `clients/gemini_client.py`, `GeminiClient._execute_tool_calls`
(lines 407-453).  On success the reduced text is sliced
`text_payload[:1_000_000]` and wrapped as `response=\x7b"result": …\x7d`; a
failure synthesizes `response=\x7b"error": "Tool execution failed: <e>"\x7d`
and the loop continues with the next call. -/
def gemini_execute_tool_calls (callTool : String → Js → Except (List Char) CallToolResult) :
    List GeminiFunctionCall → List GeminiResultPart
  | [] => []
  | c :: rest =>
    (match callTool c.name (geminiArgs c.args) with
     | .ok result => ⟨c.name, .result ((geminiReduce result).take 1000000)⟩
     | .error e => ⟨c.name, .error ("Tool execution failed: ".toList ++ e)⟩)
    :: gemini_execute_tool_calls callTool rest

/-- An Anthropic response content block after
`_process_content_blocks_for_tool_use`: a text block or a `tool_use`
block. -/
inductive AnthropicBlock where
  | text (s : List Char)
  | toolUse (tub : ToolUseBlockM)

/-- `[b for b in content_blocks if getattr(b, "type", None) == "tool_use"]`. -/
def toolUsesOf (blocks : List AnthropicBlock) : List ToolUseBlockM :=
  blocks.filterMap fun b =>
    match b with
    | .toolUse t => some t
    | .text _ => none

/-- The `memory_save_message` call sites inside
`AnthropicClient.ask_question`, distinguished by their arguments:
`("user", question)`, `("assistant", content_blocks)`,
`("user", result_blocks, "tool_result")`, and — in the no-history branch —
`("assistant", result)`. -/
inductive AnthropicSave where
  | userText (content : List Char)
  | assistantBlocks (blocks : List AnthropicBlock)
  | toolResults (blocks : List AnthropicResultBlock)
  | assistantText (content : List Char)

/-- The `while True` loop of the `maintain_history` branch of
`AnthropicClient.ask_question` (lines 713-753), projected onto its
`memory_save_message` calls.  `script` lists the successive `content_blocks`
returned by `anthropic.messages.create` (the vendor SDK is an oracle); the
loop stops at the first turn without tool uses, or when the script is
exhausted. -/
def anthropicHistoryLoopSaves (use_memory : Bool)
    (callTool : String → Js → Except (List Char) CallToolResult) :
    List (List AnthropicBlock) → List AnthropicSave
  | [] => []
  | blocks :: rest =>
    (if use_memory then [AnthropicSave.assistantBlocks blocks] else [])
    ++ (if (toolUsesOf blocks).isEmpty then []
        else (if use_memory then
                [AnthropicSave.toolResults
                  (anthropic_execute_tool_calls callTool (toolUsesOf blocks))]
              else [])
          ++ anthropicHistoryLoopSaves use_memory callTool rest)

/-- `clients/anthropic_client.py`, `AnthropicClient.ask_question`
(lines 677-764), projected onto its `memory_save_message` calls.  The
question is validated first (a `ValueError` persists nothing); when
`use_memory` the validated question is saved before branching; the
`maintain_history` branch runs the loop above; the other branch delegates to
`ask_single_question` (which performs no memory saves; its return value is
the oracle `singleAnswer`) and then saves the question again together with
the answer.  `load_from_memory` only reloads history and performs no
saves. -/
def anthropic_ask_question_saves (maintain_history use_memory load_from_memory : Bool)
    (question : List Char) (singleAnswer : List Char)
    (callTool : String → Js → Except (List Char) CallToolResult)
    (script : List (List AnthropicBlock)) : Except String (List AnthropicSave) :=
  match validate_question question with
  | .error e => .error e
  | .ok q =>
    .ok ((if use_memory then [AnthropicSave.userText q] else [])
      ++ (if maintain_history then anthropicHistoryLoopSaves use_memory callTool script
          else if use_memory then
            [AnthropicSave.userText q, AnthropicSave.assistantText singleAnswer]
          else []))

/-- The keyword-argument defaults of an `ask_question` signature. -/
structure AskQuestionDefaults where
  maintain_history : Bool
  use_memory : Bool
  load_from_memory : Bool
deriving DecidableEq

/-- `clients/base_llm_client.py` lines 139-145, the abstract
`BaseLLMClient.ask_question` signature. -/
def base_ask_question_defaults : AskQuestionDefaults :=
  { maintain_history := false, use_memory := true, load_from_memory := true }

/-- `clients/anthropic_client.py` lines 677-683,
`AnthropicClient.ask_question`. -/
def anthropic_ask_question_defaults : AskQuestionDefaults :=
  { maintain_history := false, use_memory := false, load_from_memory := true }

/-- `clients/openai_client.py` lines 529-535, `OpenAiClient.ask_question`. -/
def openai_ask_question_defaults : AskQuestionDefaults :=
  { maintain_history := false, use_memory := true, load_from_memory := true }

/-- `clients/gemini_client.py` lines 530-535, `GeminiClient.ask_question`. -/
def gemini_ask_question_defaults : AskQuestionDefaults :=
  { maintain_history := false, use_memory := true, load_from_memory := true }

/-- The keyword-argument defaults of an `ask_with_persistent_session`
signature. -/
structure PersistentAskDefaults where
  maintain_history : Bool
  use_memory : Bool
  auto_establish_connection : Bool
deriving DecidableEq

/-- `clients/base_llm_client.py` lines 222-228, the abstract
`BasePersistentLLMClient.ask_with_persistent_session` signature. -/
def base_persistent_ask_defaults : PersistentAskDefaults :=
  { maintain_history := true, use_memory := true, auto_establish_connection := true }

/-- `clients/anthropic_client.py` lines 971-977,
`PersistentAnthropicClient.ask_with_persistent_session` (its own docstring
states `default: True` for the first two). -/
def anthropic_persistent_ask_defaults : PersistentAskDefaults :=
  { maintain_history := false, use_memory := false, auto_establish_connection := true }

/-- `clients/openai_client.py` lines 838-844,
`PersistentOpenAiClient.ask_with_persistent_session`. -/
def openai_persistent_ask_defaults : PersistentAskDefaults :=
  { maintain_history := true, use_memory := true, auto_establish_connection := true }

/-- `clients/gemini_client.py` lines 894-899,
`PersistentGeminiClient.ask_with_persistent_session`. -/
def gemini_persistent_ask_defaults : PersistentAskDefaults :=
  { maintain_history := true, use_memory := true, auto_establish_connection := true }

/-- Python `str.split(sep)` for a one-character separator (`"".split` gives
`[""]`; n separators give n+1 parts). -/
def pySplit (sep : Char) : List Char → List (List Char)
  | [] => [[]]
  | c :: t =>
    let rest := pySplit sep t
    if c = sep then [] :: rest
    else
      match rest with
      | r :: rs => (c :: r) :: rs
      | [] => [[c]]

/-- The `system_prompt` value found in a decoded JWT payload dict, before
the string/cap validation: `payload.get('system_prompt') or
payload.get('systemPrompt')`, then — when that is falsy and a `claims` key
exists whose value is a dict — `claims.get('system_prompt') or
claims.get('systemPrompt')` (`anthropic_client.py` lines 102-109). -/
def jwtPayloadSystemPromptValue (kvs : List (String × Js)) : Js :=
  let sp := jsOr (jsGet kvs "system_prompt") (jsGet kvs "systemPrompt")
  if !jsTruthy sp && (kvs.lookup "claims").isSome then
    match jsGet kvs "claims" with
    | .obj ckvs => jsOr (jsGet ckvs "system_prompt") (jsGet ckvs "systemPrompt")
    | _ => sp
  else sp

/-- `clients/anthropic_client.py`,
`AnthropicClient._extract_system_prompt_from_jwt` (lines 55-135).
`decode` is the external `jwt_lib.decode`: `.error` models a raised
exception (caught and logged by the function), `.ok` its returned payload.
A falsy token, a token without exactly 3 dot-separated parts, a decode
failure, a non-dict payload, and a non-string or falsy extracted value all
yield `None`; a string longer than 10_000 characters is truncated. -/
def anthropic_extract_system_prompt_from_jwt (jwt_token : String)
    (decode : String → Except String Js) : Option (List Char) :=
  if jwt_token = "" then none
  else if (pySplit '.' jwt_token.toList).length ≠ 3 then none
  else
    match decode jwt_token with
    | .error _ => none
    | .ok payload =>
      match payload with
      | .obj kvs =>
        match jwtPayloadSystemPromptValue kvs with
        | .str s =>
          if s.toList = [] then none
          else if 10000 < s.toList.length then some (s.toList.take 10000)
          else some s.toList
        | _ => none
      | _ => none

/-- `clients/anthropic_client.py` line 25, the module-level default
prompt. -/
def DEFAULT_FINANCIAL_SYSTEM_PROMPT : List Char :=
  ("You are a skilled Financial Analyst. You will use the tools provided to you "
   ++ "to answer the question. You will only use the tools provided to you and not "
   ++ "any other tools that are not provided to you. Use the `search` tool to find "
   ++ "the appropriate dataset for the question. Use the `fetch` tool to fetch the "
   ++ "data from the dataset.").toList

/-- `clients/anthropic_client.py`, `AnthropicClient.__init__` lines 311-326:
the effective `self.system_prompt`.  `configPrompt` is
`config.get("system_prompt")`, `softwareStatement` the value stored on the
connection manager; `if not …:` is Python falsiness (absent or empty). -/
def anthropic_resolve_system_prompt (configPrompt : Option String)
    (softwareStatement : Option String) (decode : String → Except String Js) :
    List Char :=
  let sp1 : Option (List Char) := configPrompt.map String.toList
  let sp2 : Option (List Char) :=
    if sp1.getD [] = [] then
      match softwareStatement with
      | some ss =>
        if ss ≠ "" then
          match anthropic_extract_system_prompt_from_jwt ss decode with
          | some jwtPrompt => if jwtPrompt ≠ [] then some jwtPrompt else sp1
          | none => sp1
        else sp1
      | none => sp1
    else sp1
  if sp2.getD [] = [] then DEFAULT_FINANCIAL_SYSTEM_PROMPT else sp2.getD []

/-- `memory/base_memory.py`, `class MessageRole(Enum)`.  The `FUNCTION`
member is named `func` here because `function` is a Lean keyword; its string
value is `"function"` as in the source. -/
inductive MessageRole where
  | user
  | assistant
  | system
  | tool
  | func
deriving DecidableEq

/-- `role.value`. -/
def MessageRole.value : MessageRole → String
  | .user => "user"
  | .assistant => "assistant"
  | .system => "system"
  | .tool => "tool"
  | .func => "function"

/-- `MessageRole(s)`: `none` models the `ValueError` raised on an unknown
value. -/
def MessageRole.fromValue (s : String) : Option MessageRole :=
  if s = "user" then some .user
  else if s = "assistant" then some .assistant
  else if s = "system" then some .system
  else if s = "tool" then some .tool
  else if s = "function" then some .func
  else none

/-- `memory/base_memory.py`, `class MessageType(Enum)`. -/
inductive MessageType where
  | text
  | tool_call
  | tool_result
  | image
  | audio
  | multimodal
deriving DecidableEq

/-- `message_type.value`. -/
def MessageType.value : MessageType → String
  | .text => "text"
  | .tool_call => "tool_call"
  | .tool_result => "tool_result"
  | .image => "image"
  | .audio => "audio"
  | .multimodal => "multimodal"

/-- `MessageType(s)`: `none` models the `ValueError` raised on an unknown
value. -/
def MessageType.fromValue (s : String) : Option MessageType :=
  if s = "text" then some .text
  else if s = "tool_call" then some .tool_call
  else if s = "tool_result" then some .tool_result
  else if s = "image" then some .image
  else if s = "audio" then some .audio
  else if s = "multimodal" then some .multimodal
  else none

/-- `c.toNat - ord('0')`: the numeric value of a digit character. -/
def digitVal (c : Char) : Nat := c.toNat - 48

/-- Zero-padded fixed-width decimal rendering (Python's `%04d`-style fields
of `datetime.isoformat`), most significant digit first. -/
def padDigits : Nat → Nat → List Char
  | 0, _ => []
  | w + 1, n => Nat.digitChar (n / 10 ^ w) :: padDigits w (n % 10 ^ w)

/-- Read exactly `w` decimal digits, accumulating their value. -/
def readFixedDigits : Nat → Nat → List Char → Option (Nat × List Char)
  | 0, acc, l => some (acc, l)
  | _ + 1, _, [] => none
  | w + 1, acc, c :: l =>
      if c.isDigit then readFixedDigits w (acc * 10 + digitVal c) l else none

/-- Consume one expected character. -/
def expectChar (c : Char) : List Char → Option (List Char)
  | [] => none
  | x :: l => if x = c then some l else none

/-- A `datetime.datetime` value (naive UTC, as produced by
`datetime.utcnow()`).  Only the fields that `isoformat`/`fromisoformat`
serialize are modelled. -/
structure Timestamp where
  year : Nat
  month : Nat
  day : Nat
  hour : Nat
  minute : Nat
  second : Nat
  microsecond : Nat
deriving DecidableEq

/-- The field bounds guaranteed for every real `datetime` (the genuine
bounds are tighter; these are what the serialization round trip needs). -/
def Timestamp.Valid (t : Timestamp) : Prop :=
  t.year < 10000 ∧ t.month < 100 ∧ t.day < 100 ∧ t.hour < 100 ∧
    t.minute < 100 ∧ t.second < 100 ∧ t.microsecond < 1000000

instance (t : Timestamp) : Decidable t.Valid := by
  unfold Timestamp.Valid
  infer_instance

/-- `datetime.isoformat()`: `YYYY-MM-DDTHH:MM:SS[.ffffff]`, the fractional
part omitted when `microsecond == 0`. -/
def Timestamp.isoformat (t : Timestamp) : List Char :=
  padDigits 4 t.year ++ '-' :: padDigits 2 t.month ++ '-' :: padDigits 2 t.day
    ++ 'T' :: padDigits 2 t.hour ++ ':' :: padDigits 2 t.minute
    ++ ':' :: padDigits 2 t.second
    ++ (if t.microsecond = 0 then [] else '.' :: padDigits 6 t.microsecond)

/-- `datetime.fromisoformat` restricted to the formats `isoformat`
produces (the Python parser accepts further formats; only these occur in
stored data).  `none` models the raised `ValueError`. -/
def Timestamp.fromisoformat (l : List Char) : Option Timestamp := do
  let (y, l) ← readFixedDigits 4 0 l
  let l ← expectChar '-' l
  let (mo, l) ← readFixedDigits 2 0 l
  let l ← expectChar '-' l
  let (d, l) ← readFixedDigits 2 0 l
  let l ← expectChar 'T' l
  let (h, l) ← readFixedDigits 2 0 l
  let l ← expectChar ':' l
  let (mi, l) ← readFixedDigits 2 0 l
  let l ← expectChar ':' l
  let (s, l) ← readFixedDigits 2 0 l
  match l with
  | [] => some ⟨y, mo, d, h, mi, s, 0⟩
  | c :: l =>
    if c = '.' then do
      let (u, l) ← readFixedDigits 6 0 l
      if l.isEmpty then some ⟨y, mo, d, h, mi, s, u⟩ else none
    else none

/-- `memory/base_memory.py`, `@dataclass class UniversalMessage`, fields in
source order.  `__post_init__` guarantees `timestamp` and `message_id` are
set, so they are modelled as non-optional (their auto-fill draws on the
external clock and `uuid4`).  `content`, `raw_content` and `metadata` are
arbitrary values where Python's `None` is `Js.null`; the remaining optional
fields carry their declared schema types. -/
structure UniversalMessage where
  role : MessageRole
  content : Js
  message_type : MessageType
  timestamp : Timestamp
  message_id : String
  session_id : Option String
  provider : Option String
  raw_content : Js
  token_count : Option Int
  tool_calls : Option (List Js)
  tool_results : Option (List Js)
  user_id : Option String
  context_tags : Option (List String)
  metadata : Js

/-- Encode an optional string (`None` becomes JSON `null`). -/
def optStrJs : Option String → Js
  | none => .null
  | some s => .str s

/-- Decode a value that the schema types as an optional string; other shapes
fail (Python would pass them through untyped, which the model excludes). -/
def jsAsOptStr : Js → Option (Option String)
  | .null => some none
  | .str s => some (some s)
  | _ => none

/-- Encode an optional integer. -/
def optIntJs : Option Int → Js
  | none => .null
  | some n => .num n

/-- Decode an optional integer. -/
def jsAsOptInt : Js → Option (Option Int)
  | .null => some none
  | .num n => some (some n)
  | _ => none

/-- Encode an optional list of JSON records (`tool_calls`/`tool_results`). -/
def optArrJs : Option (List Js) → Js
  | none => .null
  | some xs => .arr xs

/-- Decode an optional list of JSON records. -/
def jsAsOptArr : Js → Option (Option (List Js))
  | .null => some none
  | .arr xs => some (some xs)
  | _ => none

/-- Encode the optional `context_tags` string list. -/
def optStrListJs : Option (List String) → Js
  | none => .null
  | some xs => .arr (xs.map Js.str)

/-- A JSON string element. -/
def jsAsStr1 : Js → Option String
  | .str s => some s
  | _ => none

/-- Decode a list of JSON strings. -/
def jsAsStrList : List Js → Option (List String)
  | [] => some []
  | x :: t => do
    let s ← jsAsStr1 x
    let rest ← jsAsStrList t
    some (s :: rest)

/-- Decode the optional `context_tags` string list. -/
def jsAsOptStrList : Js → Option (Option (List String))
  | .null => some none
  | .arr xs => (jsAsStrList xs).map some
  | _ => none

/-- `memory/base_memory.py`, `UniversalMessage.to_dict` (lines 66-78):
`asdict(self)` with `role`/`message_type` replaced by their enum values and
`timestamp` by its ISO string, keys in dataclass field order. -/
def UniversalMessage.to_dict (m : UniversalMessage) : Js :=
  .obj [ ("role", .str m.role.value),
         ("content", m.content),
         ("message_type", .str m.message_type.value),
         ("timestamp", .str (String.mk m.timestamp.isoformat)),
         ("message_id", .str m.message_id),
         ("session_id", optStrJs m.session_id),
         ("provider", optStrJs m.provider),
         ("raw_content", m.raw_content),
         ("token_count", optIntJs m.token_count),
         ("tool_calls", optArrJs m.tool_calls),
         ("tool_results", optArrJs m.tool_results),
         ("user_id", optStrJs m.user_id),
         ("context_tags", optStrListJs m.context_tags),
         ("metadata", m.metadata) ]

/-- `memory/base_memory.py`, `UniversalMessage.from_dict` (lines 80-91):
string-typed `role`/`message_type`/`timestamp` entries are converted back
(`MessageRole(...)`/`MessageType(...)`/`fromisoformat` raise on unknown or
malformed values, modelled as `none`); the remaining entries are passed to
the constructor.  Shapes outside the declared schema and dicts missing the
always-present fields fail. -/
def UniversalMessage.from_dict (j : Js) : Option UniversalMessage := do
  let kvs ← match j with
    | .obj kvs => some kvs
    | _ => none
  let role ← match jsGet kvs "role" with
    | .str s => MessageRole.fromValue s
    | _ => none
  let mtype ← match jsGet kvs "message_type" with
    | .str s => MessageType.fromValue s
    | _ => none
  let ts ← match jsGet kvs "timestamp" with
    | .str s => Timestamp.fromisoformat s.toList
    | _ => none
  let mid ← match jsGet kvs "message_id" with
    | .str s => some s
    | _ => none
  let sid ← jsAsOptStr (jsGet kvs "session_id")
  let prov ← jsAsOptStr (jsGet kvs "provider")
  let tcount ← jsAsOptInt (jsGet kvs "token_count")
  let tcalls ← jsAsOptArr (jsGet kvs "tool_calls")
  let tresults ← jsAsOptArr (jsGet kvs "tool_results")
  let uid ← jsAsOptStr (jsGet kvs "user_id")
  let ctags ← jsAsOptStrList (jsGet kvs "context_tags")
  some ⟨role, jsGet kvs "content", mtype, ts, mid, sid, prov,
        jsGet kvs "raw_content", tcount, tcalls, tresults, uid, ctags,
        jsGet kvs "metadata"⟩

/-- `UniversalMessage.to_json`: `json.dumps(self.to_dict(), …)`.  The JSON
text codec (Python standard library, external to the repository) is modelled
as the identity on the `Js` tree. -/
def UniversalMessage.to_json (m : UniversalMessage) : Js := m.to_dict

/-- `UniversalMessage.from_json`: `cls.from_dict(json.loads(json_str))`,
with the JSON text codec modelled as the identity on the `Js` tree. -/
def UniversalMessage.from_json (j : Js) : Option UniversalMessage :=
  UniversalMessage.from_dict j

/-- `d[k] = v` on a Python dict modelled as an association list: replace in
place, append when the key is new (insertion order preserved). -/
def dinsert {α : Type} : List (String × α) → String → α → List (String × α)
  | [], k, v => [(k, v)]
  | (k', v') :: t, k, v =>
      if k' = k then (k, v) :: t else (k', v') :: dinsert t k v

/-- `del d[k]` / `d.pop(k, None)`: drop the first binding of `k`. -/
def derase {α : Type} : List (String × α) → String → List (String × α)
  | [], _ => []
  | (k', v') :: t, k => if k' = k then t else (k', v') :: derase t k

/-- `memory/base_memory.py`, `@dataclass class ConversationSession`.  The
`created_at`/`last_activity` timestamps come from the external clock and the
numeric configuration fields are constants; none of them is read by a claim
under verification, so they are omitted. -/
structure ConversationSession where
  session_id : String
  user_id : Option String
  client_type : Option String
  system_prompt : Option String
  message_count : Nat
  context_tags : List String
  session_metadata : List (String × Js)

/-- `memory/stores/memory_memory.py`, `InMemoryStore.__init__`: the three
dictionaries `messages`, `sessions`, `user_sessions`. -/
structure InMemoryStore where
  messages : List (String × List UniversalMessage)
  sessions : List (String × ConversationSession)
  user_sessions : List (String × List String)

/-- A freshly constructed `InMemoryStore()`. -/
def InMemoryStore.empty : InMemoryStore := ⟨[], [], []⟩

/-- `memory/stores/memory_memory.py`, `InMemoryStore.save_message`
(lines 20-42): reject a falsy `session_id`; append the message to the
session's list (creating it on first use); bump the cached
`message_count` when the session record exists. -/
def InMemoryStore.save_message (st : InMemoryStore) (m : UniversalMessage) :
    InMemoryStore × Bool :=
  match m.session_id with
  | none => (st, false)
  | some sid =>
    if sid = "" then (st, false)
    else
      let msgs := (st.messages.lookup sid).getD []
      let st1 := { st with messages := dinsert st.messages sid (msgs ++ [m]) }
      let st2 := match st1.sessions.lookup sid with
        | some s => { st1 with
            sessions := dinsert st1.sessions sid { s with message_count := s.message_count + 1 } }
        | none => st1
      (st2, true)

/-- The history post-processing shared verbatim by
`InMemoryStore.get_conversation_history` and
`FileMemoryStore.get_conversation_history`: the `message_types` filter, the
`before_message_id` cutoff and the `messages[-limit:]` slice, each skipped
when its argument is Python-falsy. -/
def historyFilters (messages : List UniversalMessage) (limit : Option Nat)
    (before_message_id : Option String)
    (message_types : Option (List MessageType)) : List UniversalMessage :=
  let messages := match message_types with
    | some (t :: ts) => messages.filter (fun m => (t :: ts).contains m.message_type)
    | _ => messages
  let messages := match before_message_id with
    | some bid =>
      if bid = "" then messages
      else
        match messages.findIdx? (fun m => m.message_id == bid) with
        | some i => messages.take i
        | none => messages
    | none => messages
  match limit with
  | some n => if n = 0 then messages else messages.drop (messages.length - n)
  | none => messages

/-- `memory/stores/memory_memory.py`,
`InMemoryStore.get_conversation_history` (lines 44-78). -/
def InMemoryStore.get_conversation_history (st : InMemoryStore) (session_id : String)
    (limit : Option Nat) (before_message_id : Option String)
    (message_types : Option (List MessageType)) : List UniversalMessage :=
  historyFilters ((st.messages.lookup session_id).getD [])
    limit before_message_id message_types

/-- `memory/stores/memory_memory.py`, `InMemoryStore.save_session`
(lines 80-97). -/
def InMemoryStore.save_session (st : InMemoryStore) (s : ConversationSession) :
    InMemoryStore × Bool :=
  let st1 := { st with sessions := dinsert st.sessions s.session_id s }
  let st2 := match s.user_id with
    | some uid =>
      if uid = "" then st1
      else
        let lst := (st1.user_sessions.lookup uid).getD []
        if lst.contains s.session_id then st1
        else { st1 with user_sessions := dinsert st1.user_sessions uid (lst ++ [s.session_id]) }
    | none => st1
  (st2, true)

/-- `memory/stores/memory_memory.py`, `InMemoryStore.get_session`
(lines 99-101). -/
def InMemoryStore.get_session (st : InMemoryStore) (sid : String) :
    Option ConversationSession :=
  st.sessions.lookup sid

/-- `memory/stores/memory_memory.py`, `InMemoryStore.update_session_activity`
(lines 103-112): `update_activity()` only refreshes `last_activity`
(external clock, not modelled), so the store is returned unchanged. -/
def InMemoryStore.update_session_activity (st : InMemoryStore) (sid : String) :
    InMemoryStore × Bool :=
  match st.sessions.lookup sid with
  | some _ => (st, true)
  | none => (st, false)

/-- `memory/stores/memory_memory.py`, `InMemoryStore.delete_session`
(lines 114-135): remove the message list, pop the session record, drop the
id from the owner's `user_sessions` entry. -/
def InMemoryStore.delete_session (st : InMemoryStore) (sid : String) :
    InMemoryStore × Bool :=
  let sess := st.sessions.lookup sid
  let st1 := { st with messages := derase st.messages sid,
                       sessions := derase st.sessions sid }
  let st2 := match sess with
    | some s =>
      match s.user_id with
      | some uid =>
        if uid = "" then st1
        else
          match st1.user_sessions.lookup uid with
          | some lst =>
            if lst.contains sid then
              { st1 with user_sessions := dinsert st1.user_sessions uid (lst.erase sid) }
            else st1
          | none => st1
      | none => st1
    | none => st1
  (st2, true)

/-- `memory/stores/file_memory.py`, `FileMemoryStore`: the filesystem state.
`sessionFiles` maps a session id to the parsed contents of
`sessions/<sid>.json`; `messageFiles` maps it to the parsed JSON lines of
`messages/<sid>.jsonl` (the JSON text codec is modelled as the identity on
`Js` trees, see `UniversalMessage.to_json`). -/
structure FileMemoryStore where
  sessionFiles : List (String × Js)
  messageFiles : List (String × List Js)

/-- `memory/stores/file_memory.py`, `FileMemoryStore.save_message`
(lines 43-62): reject a falsy `session_id`; append `message.to_json()` as a
new line (append-mode open creates a missing file). -/
def FileMemoryStore.save_message (st : FileMemoryStore) (m : UniversalMessage) :
    FileMemoryStore × Bool :=
  match m.session_id with
  | none => (st, false)
  | some sid =>
    if sid = "" then (st, false)
    else
      let lines := (st.messageFiles.lookup sid).getD []
      ({ st with messageFiles := dinsert st.messageFiles sid (lines ++ [m.to_json]) }, true)

/-- `memory/stores/file_memory.py`, `FileMemoryStore.get_conversation_history`
(lines 64-114): a missing file yields `[]`; each line is parsed with
`UniversalMessage.from_json`, corrupted lines are skipped with a warning;
then the shared filter chain runs. -/
def FileMemoryStore.get_conversation_history (st : FileMemoryStore) (session_id : String)
    (limit : Option Nat) (before_message_id : Option String)
    (message_types : Option (List MessageType)) : List UniversalMessage :=
  match st.messageFiles.lookup session_id with
  | none => []
  | some lines =>
    historyFilters (lines.filterMap UniversalMessage.from_json)
      limit before_message_id message_types

/-- The composed state of `ConversationMemoryMixin` together with its
`SessionManager` (`memory/memory_mixin.py`, `memory/session_manager.py`)
over an `InMemoryStore`.  `active_sessions` is
`SessionManager._active_sessions`; memory is enabled and the client was
constructed with an explicit `memory_session_id` (the id-generation path
draws on the external clock and `uuid4` and is supplied via the per-call
`genId` oracle). -/
structure MemoryMixinState where
  store : InMemoryStore
  active_sessions : List (String × ConversationSession)
  memory_session_id : Option String
  session_initialized : Bool
  user_id : Option String
  provider_name : String

/-- `memory/session_manager.py`, `SessionManager.get_session`
(lines 136-157): the `_active_sessions` cache is consulted FIRST; only on a
miss is the store read (and the result cached). -/
def managerGetSession (st : MemoryMixinState) (sid : String) :
    MemoryMixinState × Option ConversationSession :=
  match st.active_sessions.lookup sid with
  | some s => (st, some s)
  | none =>
    match st.store.get_session sid with
    | some s => ({ st with active_sessions := dinsert st.active_sessions sid s }, some s)
    | none => (st, none)

/-- `memory/session_manager.py`, `SessionManager.create_session`
(lines 66-134) on the path where a `session_id` is supplied and
`force_new=False`: raise when the store already has the session, otherwise
save a fresh record and register it in `_active_sessions`.  (The advisory
`_session_locks` guard concurrent tasks only and is invisible to this
single-task model.) -/
def managerCreateSession (st : MemoryMixinState) (sid : String)
    (user_id client_type system_prompt : Option String)
    (session_metadata : List (String × Js)) :
    Except String (MemoryMixinState × ConversationSession) :=
  match st.store.get_session sid with
  | some _ => .error "Session already exists. Use force_new=True to override."
  | none =>
    let session : ConversationSession :=
      { session_id := sid, user_id := user_id, client_type := client_type,
        system_prompt := system_prompt, message_count := 0,
        context_tags := [], session_metadata := session_metadata }
    let (store1, _) := st.store.save_session session
    .ok ({ st with store := store1,
                   active_sessions := dinsert st.active_sessions sid session },
         session)

/-- `memory/session_manager.py`, `SessionManager.ensure_session_exists`
(lines 159-191): get (cache first), create when absent. -/
def managerEnsureSessionExists (st : MemoryMixinState) (sid : String)
    (user_id client_type system_prompt : Option String) :
    Except String (MemoryMixinState × ConversationSession) :=
  match managerGetSession st sid with
  | (st1, some s) => .ok (st1, s)
  | (st1, none) =>
      managerCreateSession st1 sid user_id client_type system_prompt []

/-- `memory/memory_mixin.py`,
`ConversationMemoryMixin.memory_initialize_session` (lines 64-116): a no-op
once `_session_initialized`; otherwise fix the session id (generating
`genId` when unset), ensure the session exists through the session manager
and set the flag.  A raised exception is caught and reported as `False`
(callers ignore the result). -/
def memory_initialize_session (st : MemoryMixinState) (genId : String)
    (system_prompt : Option String) : MemoryMixinState :=
  if st.session_initialized then st
  else
    let sid := match st.memory_session_id with
      | some s => if s = "" then genId else s
      | none => genId
    let st1 := { st with memory_session_id := some sid }
    match managerEnsureSessionExists st1 sid st1.user_id (some st1.provider_name)
        system_prompt with
    | .ok (st2, _) => { st2 with session_initialized := true }
    | .error _ => st1

/-- `memory/memory_mixin.py`, `ConversationMemoryMixin.memory_save_message`
(lines 118-164): initialize the session (result ignored), build the
`UniversalMessage` (unknown `message_type` strings fall back to `TEXT`; an
unknown `role` raises, is caught, and yields `False`), save it through the
store, then refresh the session activity.  `msgId`/`ts` are the external
`uuid4`/`utcnow` draws. -/
def memory_save_message (st : MemoryMixinState) (genId : String) (role : String)
    (content : Js) (message_type : Option String) (msgId : String) (ts : Timestamp) :
    MemoryMixinState × Bool :=
  let st1 := memory_initialize_session st genId none
  let msg_type := match message_type with
    | some mt => (MessageType.fromValue mt).getD .text
    | none => .text
  match MessageRole.fromValue role with
  | none => (st1, false)
  | some r =>
    let msg : UniversalMessage :=
      { role := r, content := content, message_type := msg_type, timestamp := ts,
        message_id := msgId, session_id := st1.memory_session_id,
        provider := some st1.provider_name, raw_content := .null,
        token_count := none, tool_calls := none, tool_results := none,
        user_id := st1.user_id, context_tags := none, metadata := .null }
    let (store1, success) := st1.store.save_message msg
    let st2 := { st1 with store := store1 }
    if success then
      let (store2, _) := st2.store.update_session_activity
        ((st2.memory_session_id).getD "")
      ({ st2 with store := store2 }, true)
    else (st2, false)

/-- `memory/memory_mixin.py`, `ConversationMemoryMixin.memory_clear_session`
(lines 232-245): delete the session DIRECTLY through the store (the session
manager's `_active_sessions` cache keeps its now-stale entry) and reset the
`_session_initialized` flag. -/
def memory_clear_session (st : MemoryMixinState) : MemoryMixinState × Bool :=
  match st.memory_session_id with
  | none => (st, true)
  | some sid =>
    if sid = "" then (st, true)
    else
      let (store1, success) := st.store.delete_session sid
      let st1 := { st with store := store1 }
      if success then ({ st1 with session_initialized := false }, true)
      else (st1, false)

/-- `memory/memory_mixin.py`, `ConversationMemoryMixin.memory_switch_session`
(lines 247-281): validate (or create) the target session through the session
manager, then adopt it and mark the session initialized. -/
def memory_switch_session (st : MemoryMixinState) (new_session_id : String)
    (create_if_not_exists : Bool) : MemoryMixinState × Bool :=
  if create_if_not_exists then
    match managerEnsureSessionExists st new_session_id st.user_id
        (some st.provider_name) none with
    | .ok (st1, _) =>
      ({ st1 with memory_session_id := some new_session_id,
                  session_initialized := true }, true)
    | .error _ => (st, false)
  else
    match managerGetSession st new_session_id with
    | (st1, some _) =>
      ({ st1 with memory_session_id := some new_session_id,
                  session_initialized := true }, true)
    | (st1, none) => (st1, false)

/-- One operation of the memory facade, with its external draws
(`msgId`/`ts`/`genId`) attached. -/
inductive FacadeOp where
  | save (role : String) (content : Js) (message_type : Option String)
         (msgId : String) (ts : Timestamp) (genId : String)
  | clear
  | switch (new_session_id : String) (create_if_not_exists : Bool)

/-- Apply one facade operation. -/
def facadeStep (st : MemoryMixinState) : FacadeOp → MemoryMixinState
  | .save role content mt msgId ts genId =>
      (memory_save_message st genId role content mt msgId ts).1
  | .clear => (memory_clear_session st).1
  | .switch nid c => (memory_switch_session st nid c).1

/-- Run a sequence of facade operations. -/
def facadeRun (st : MemoryMixinState) : List FacadeOp → MemoryMixinState
  | [] => st
  | op :: rest => facadeRun (facadeStep st op) rest

/-- A memory-enabled client freshly constructed with an explicit
`memory_session_id` over an empty `InMemoryStore` (e.g.
`AnthropicClient.with_in_memory_store(config, memory_session_id=sid)`). -/
def facadeInit (sid : String) : MemoryMixinState :=
  { store := InMemoryStore.empty, active_sessions := [],
    memory_session_id := some sid, session_initialized := false,
    user_id := none, provider_name := "anthropic" }

/-- A representative well-formed message, used to instantiate theorems with
hypotheses at a concrete input. -/
def sampleMessage : UniversalMessage :=
  { role := .user, content := .str "hi", message_type := .text,
    timestamp := ⟨2026, 10, 12, 9, 30, 0, 123456⟩, message_id := "m-1",
    session_id := some "s1", provider := some "anthropic", raw_content := .null,
    token_count := some 3, tool_calls := none, tool_results := none,
    user_id := some "u1", context_tags := some ["demo"], metadata := .null }

/-! ## Helper lemmas -/

theorem mem_dropWhile_of_mem {α : Type} {p : α → Bool} {c : α} (hc : p c = false) :
    ∀ {l : List α}, c ∈ l → c ∈ l.dropWhile p := by
  intro l h
  induction l with
  | nil => cases h
  | cons x t ih =>
    rw [List.dropWhile_cons]
    rcases List.mem_cons.mp h with rfl | ht
    · simp [hc]
    · split
      · exact ih ht
      · exact List.mem_cons_of_mem _ ht

theorem mem_pyStrip {c : Char} (hc : isPySpace c = false) (q : List Char) :
    c ∈ pyStrip q ↔ c ∈ q := by
  unfold pyStrip
  constructor
  · intro h
    have h1 := List.mem_reverse.mp h
    have h2 := (List.dropWhile_sublist (l := (q.dropWhile isPySpace).reverse) isPySpace).mem h1
    have h3 := List.mem_reverse.mp h2
    exact (List.dropWhile_sublist (l := q) isPySpace).mem h3
  · intro h
    apply List.mem_reverse.mpr
    apply mem_dropWhile_of_mem hc
    apply List.mem_reverse.mpr
    exact mem_dropWhile_of_mem hc h

theorem dropWhile_replicate_nonspace {n : Nat} {c : Char} (hc : isPySpace c = false) :
    List.dropWhile isPySpace (List.replicate n c) = List.replicate n c := by
  cases n with
  | zero => rfl
  | succ k => simp [List.replicate_succ, List.dropWhile_cons, hc]

theorem pyStrip_replicate {n : Nat} {c : Char} (hc : isPySpace c = false) :
    pyStrip (List.replicate n c) = List.replicate n c := by
  unfold pyStrip
  rw [dropWhile_replicate_nonspace hc, List.reverse_replicate,
    dropWhile_replicate_nonspace hc, List.reverse_replicate]

theorem pyStrip_replicate_append_space {n : Nat} {c : Char} (hc : isPySpace c = false) :
    pyStrip (List.replicate (n + 1) c ++ [' ']) = List.replicate (n + 1) c := by
  unfold pyStrip
  have h1 : List.dropWhile isPySpace (List.replicate (n + 1) c ++ [' '])
      = List.replicate (n + 1) c ++ [' '] := by
    rw [List.replicate_succ, List.cons_append, List.dropWhile_cons, hc]
    simp
  rw [h1, List.reverse_append, List.reverse_replicate]
  have h2 : ([' '] : List Char).reverse ++ List.replicate (n + 1) c
      = ' ' :: List.replicate (n + 1) c := by simp
  rw [h2, List.dropWhile_cons]
  simp [dropWhile_replicate_nonspace hc, List.reverse_replicate, isPySpace]

theorem validate_question_error_iff (q : List Char) :
    (∃ e, validate_question q = .error e) ↔
      (pyStrip q = [] ∨ '\x00' ∈ q ∨ 100000 < (pyStrip q).length) := by
  have hnull : ('\x00' ∈ pyStrip q) ↔ ('\x00' ∈ q) := mem_pyStrip (by decide) q
  unfold validate_question
  split_ifs with h1 h2 h3 h4
  · subst h1
    simp [pyStrip]
  · simp [h2]
  · constructor
    · intro _
      exact Or.inr (Or.inr h3)
    · intro _
      exact ⟨_, rfl⟩
  · constructor
    · intro _
      refine Or.inr (Or.inl ?_)
      exact hnull.mp (List.count_pos_iff.mp h4)
    · intro _
      exact ⟨_, rfl⟩
  · constructor
    · intro ⟨e, he⟩
      cases he
    · intro h
      rcases h with h | h | h
      · exact absurd h h2
      · exact absurd (List.count_pos_iff.mpr (hnull.mpr h)) h4
      · exact absurd h h3

theorem validate_replicate_100000_ok :
    validate_question (List.replicate 100000 'a') = .ok (List.replicate 100000 'a') := by
  have hne : (List.replicate 100000 'a' : List Char) ≠ [] := by
    rw [Ne, List.replicate_eq_nil_iff]
    omega
  have hlen : ¬ ((List.replicate 100000 'a' : List Char).length > 100000) := by
    rw [List.length_replicate]
    omega
  have hcount : ¬ (0 < (List.replicate 100000 'a' : List Char).count '\x00') := by
    rw [List.count_replicate, show ('a' == '\x00') = false from rfl]
    simp
  unfold validate_question
  rw [pyStrip_replicate (by decide)]
  rw [if_neg hne, if_neg hne, if_neg hlen, if_neg hcount]

theorem startsWithL_append (p rest : List Char) : startsWithL p (p ++ rest) = true := by
  induction p with
  | nil => rfl
  | cons c cs ih => simp [startsWithL, ih]

theorem utf8Len_replicate (n : Nat) (c : Char) :
    utf8Len (List.replicate n c) = n * c.utf8Size := by
  unfold utf8Len
  rw [List.map_replicate, List.sum_replicate, smul_eq_mul]

theorem digitChar_isDigit : ∀ d : Nat, d < 10 → (Nat.digitChar d).isDigit = true := by decide

theorem digitVal_digitChar : ∀ d : Nat, d < 10 → digitVal (Nat.digitChar d) = d := by decide

theorem readFixedDigits_padDigits (w : Nat) :
    ∀ (n acc : Nat) (rest : List Char), n < 10 ^ w →
      readFixedDigits w acc (padDigits w n ++ rest) = some (acc * 10 ^ w + n, rest) := by
  induction w with
  | zero =>
    intro n acc rest h
    have hn : n = 0 := by omega
    subst hn
    simp [padDigits, readFixedDigits]
  | succ k ih =>
    intro n acc rest h
    have hdiv : n / 10 ^ k < 10 := by
      apply Nat.div_lt_of_lt_mul
      rw [← pow_succ]
      exact h
    have hd1 : (Nat.digitChar (n / 10 ^ k)).isDigit = true := digitChar_isDigit _ hdiv
    have hd2 : digitVal (Nat.digitChar (n / 10 ^ k)) = n / 10 ^ k := digitVal_digitChar _ hdiv
    have hmod : n % 10 ^ k < 10 ^ k := Nat.mod_lt _ (Nat.pos_pow_of_pos k (by norm_num))
    rw [padDigits, List.cons_append, readFixedDigits, if_pos hd1, hd2,
      ih (n % 10 ^ k) (acc * 10 + n / 10 ^ k) rest hmod]
    congr 2
    have hdm := Nat.div_add_mod n (10 ^ k)
    have hpow : (10 : Nat) ^ (k + 1) = 10 ^ k * 10 := by ring
    rw [hpow]
    nlinarith [hdm]

theorem expectChar_cons (c : Char) (l : List Char) : expectChar c (c :: l) = some l := by
  simp [expectChar]

theorem fromisoformat_isoformat (t : Timestamp) (h : t.Valid) :
    Timestamp.fromisoformat t.isoformat = some t := by
  obtain ⟨h1, h2, h3, h4, h5, h6, h7⟩ := h
  unfold Timestamp.isoformat Timestamp.fromisoformat
  simp only [List.append_assoc, List.cons_append]
  rw [readFixedDigits_padDigits 4 _ 0 _ h1]
  simp only [Bind.bind, Option.bind, Nat.zero_mul, Nat.zero_add, expectChar_cons]
  rw [readFixedDigits_padDigits 2 _ 0 _ h2]
  simp only [Bind.bind, Option.bind, Nat.zero_mul, Nat.zero_add, expectChar_cons]
  rw [readFixedDigits_padDigits 2 _ 0 _ h3]
  simp only [Bind.bind, Option.bind, Nat.zero_mul, Nat.zero_add, expectChar_cons]
  rw [readFixedDigits_padDigits 2 _ 0 _ h4]
  simp only [Bind.bind, Option.bind, Nat.zero_mul, Nat.zero_add, expectChar_cons]
  rw [readFixedDigits_padDigits 2 _ 0 _ h5]
  simp only [Bind.bind, Option.bind, Nat.zero_mul, Nat.zero_add, expectChar_cons]
  rw [readFixedDigits_padDigits 2 _ 0 _ h6]
  simp only [Bind.bind, Option.bind, Nat.zero_mul, Nat.zero_add, expectChar_cons]
  by_cases hmu : t.microsecond = 0
  · rw [if_pos hmu]
    simp only []
    rw [← hmu]
  · rw [if_neg hmu]
    dsimp only
    rw [if_pos rfl]
    have hp : padDigits 6 t.microsecond = padDigits 6 t.microsecond ++ [] :=
      (List.append_nil _).symm
    rw [hp, readFixedDigits_padDigits 6 _ 0 _ h7]
    simp

theorem messageRoleFromValue_value :
    ∀ r : MessageRole, MessageRole.fromValue r.value = some r := by
  intro r
  cases r <;> rfl

theorem messageTypeFromValue_value :
    ∀ t : MessageType, MessageType.fromValue t.value = some t := by
  intro t
  cases t <;> rfl

theorem jsAsOptStr_optStrJs (x : Option String) : jsAsOptStr (optStrJs x) = some x := by
  cases x <;> rfl

theorem jsAsOptInt_optIntJs (x : Option Int) : jsAsOptInt (optIntJs x) = some x := by
  cases x <;> rfl

theorem jsAsOptArr_optArrJs (x : Option (List Js)) : jsAsOptArr (optArrJs x) = some x := by
  cases x <;> rfl

theorem jsAsStrList_map (xs : List String) : jsAsStrList (xs.map Js.str) = some xs := by
  induction xs with
  | nil => rfl
  | cons x t ih => simp [jsAsStrList, jsAsStr1, ih]

theorem jsAsOptStrList_optStrListJs (x : Option (List String)) :
    jsAsOptStrList (optStrListJs x) = some x := by
  cases x with
  | none => rfl
  | some xs => simp [optStrListJs, jsAsOptStrList, jsAsStrList_map]

theorem from_dict_to_dict (m : UniversalMessage) (h : m.timestamp.Valid) :
    UniversalMessage.from_dict m.to_dict = some m := by
  unfold UniversalMessage.to_dict UniversalMessage.from_dict
  simp [jsGet, List.lookup, Bind.bind, Option.bind,
    messageRoleFromValue_value, messageTypeFromValue_value,
    jsAsOptStr_optStrJs, jsAsOptInt_optIntJs, jsAsOptArr_optArrJs,
    jsAsOptStrList_optStrListJs, String.toList,
    fromisoformat_isoformat m.timestamp h]

theorem lookup_dinsert_self {α : Type} (d : List (String × α)) (k : String) (v : α) :
    (dinsert d k v).lookup k = some v := by
  induction d with
  | nil => simp [dinsert, List.lookup]
  | cons kv t ih =>
    obtain ⟨k', v'⟩ := kv
    by_cases h : k' = k
    · subst h
      simp [dinsert, List.lookup]
    · have hb : (k == k') = false := by
        simp [beq_iff_eq]
        exact fun hh => h hh.symm
      simp [dinsert, h, List.lookup, hb, ih]

theorem inmem_save_history (st : InMemoryStore) (m : UniversalMessage) (sid : String)
    (hsid : m.session_id = some sid) (hne : sid ≠ "") :
    (st.save_message m).2 = true ∧
    (st.save_message m).1.get_conversation_history sid none none none
      = st.get_conversation_history sid none none none ++ [m] := by
  unfold InMemoryStore.save_message InMemoryStore.get_conversation_history historyFilters
  rw [hsid]
  simp only [if_neg hne]
  constructor
  · cases st.sessions.lookup sid <;> trivial
  · cases hl : st.sessions.lookup sid <;>
      simp [lookup_dinsert_self]

theorem file_save_history (st : FileMemoryStore) (m : UniversalMessage) (sid : String)
    (hsid : m.session_id = some sid) (hne : sid ≠ "") (hts : m.timestamp.Valid) :
    (st.save_message m).2 = true ∧
    (st.save_message m).1.get_conversation_history sid none none none
      = st.get_conversation_history sid none none none ++ [m] := by
  unfold FileMemoryStore.save_message FileMemoryStore.get_conversation_history historyFilters
  rw [hsid]
  simp only [if_neg hne]
  refine ⟨trivial, ?_⟩
  rw [lookup_dinsert_self]
  have hrt : UniversalMessage.from_json m.to_json = some m := from_dict_to_dict m hts
  cases hl : st.messageFiles.lookup sid with
  | none => simp [List.filterMap_cons, hrt]
  | some lines => simp [List.filterMap_append, List.filterMap_cons, hrt]

theorem extract_some_facts (t : String) (decode : String → Except String Js) (p : List Char)
    (h : anthropic_extract_system_prompt_from_jwt t decode = some p) :
    p ≠ [] ∧ p.length ≤ 10000 := by
  unfold anthropic_extract_system_prompt_from_jwt at h
  split_ifs at h
  split at h
  · exact absurd h (by simp)
  · split at h
    · split at h
      · rename_i s heq
        split_ifs at h with hnil hlong
        · cases h
          refine ⟨?_, ?_⟩
          · have hlen : (s.toList.take 10000).length = 10000 := by
              rw [List.length_take]
              omega
            intro hc
            rw [hc] at hlen
            simp at hlen
          · rw [List.length_take]
            omega
        · cases h
          exact ⟨hnil, by omega⟩
      · exact absurd h (by simp)
    · exact absurd h (by simp)

theorem resolve_config_wins (s : String) (ss : Option String)
    (decode : String → Except String Js) (h : s.toList ≠ []) :
    anthropic_resolve_system_prompt (some s) ss decode = s.toList := by
  unfold anthropic_resolve_system_prompt
  simp only [String.toList] at h
  simp [h, String.toList]

theorem resolve_jwt_wins (cfg : Option String) (ss : String)
    (decode : String → Except String Js) (p : List Char)
    (hcfg : (cfg.map String.toList).getD [] = [])
    (hext : anthropic_extract_system_prompt_from_jwt ss decode = some p) :
    anthropic_resolve_system_prompt cfg (some ss) decode = p ∧ p.length ≤ 10000 := by
  obtain ⟨hne, hcap⟩ := extract_some_facts ss decode p hext
  have hss : ss ≠ "" := by
    intro hss
    rw [hss] at hext
    simp [anthropic_extract_system_prompt_from_jwt] at hext
  unfold anthropic_resolve_system_prompt
  dsimp only
  rw [if_pos hcfg, if_pos hss, hext]
  dsimp only
  rw [if_pos hne]
  exact ⟨by simp [hne], hcap⟩

theorem resolve_default (cfg : Option String) (ss : Option String)
    (decode : String → Except String Js)
    (hcfg : (cfg.map String.toList).getD [] = [])
    (hext : ∀ t, ss = some t → anthropic_extract_system_prompt_from_jwt t decode = none) :
    anthropic_resolve_system_prompt cfg ss decode = DEFAULT_FINANCIAL_SYSTEM_PROMPT := by
  unfold anthropic_resolve_system_prompt
  dsimp only
  rw [if_pos hcfg]
  cases ss with
  | none => simp [hcfg]
  | some t =>
    dsimp only
    by_cases ht : t = ""
    · simp [ht, hcfg]
    · rw [if_pos ht, hext t rfl]
      simp [hcfg]

theorem extract_malformed (t : String) (decode : String → Except String Js)
    (h : (pySplit '.' t.toList).length ≠ 3) :
    anthropic_extract_system_prompt_from_jwt t decode = none := by
  by_cases h1 : t = ""
  · simp [anthropic_extract_system_prompt_from_jwt, h1]
  · simp only [String.toList] at h
    simp [anthropic_extract_system_prompt_from_jwt, h1, h]

theorem extract_decode_error (t : String) (decode : String → Except String Js) (e : String)
    (hd : decode t = .error e) :
    anthropic_extract_system_prompt_from_jwt t decode = none := by
  unfold anthropic_extract_system_prompt_from_jwt
  split_ifs <;> try rfl
  simp [hd]

theorem extract_non_string (t : String) (decode : String → Except String Js)
    (kvs : List (String × Js)) (hd : decode t = .ok (.obj kvs))
    (hns : ∀ s, jwtPayloadSystemPromptValue kvs ≠ .str s) :
    anthropic_extract_system_prompt_from_jwt t decode = none := by
  unfold anthropic_extract_system_prompt_from_jwt
  split_ifs <;> try rfl
  rw [hd]
  cases hv : jwtPayloadSystemPromptValue kvs <;>
    first
      | exact absurd hv (hns _)
      | simp [hv]

theorem jwt_top_key_wins (kvs : List (String × Js)) (s : String)
    (hget : jsGet kvs "system_prompt" = .str s) (hs : s ≠ "") :
    jwtPayloadSystemPromptValue kvs = .str s := by
  unfold jwtPayloadSystemPromptValue
  rw [hget]
  have ht : jsTruthy (Js.str s) = true := by
    simp only [jsTruthy]
    rw [Bool.not_eq_true']
    rw [Bool.eq_false_iff]
    intro hTrue
    exact hs ((String.isEmpty_iff s).mp hTrue)
  simp [jsOr, ht]

/-! ## Claim theorems -/

/-- C1 (code bug): the spec and the abstract base class give `ask_question`
the uniform defaults `maintain_history=False, use_memory=True,
load_from_memory=True` and `ask_with_persistent_session` the defaults
`maintain_history=True, use_memory=True`; the OpenAI and Gemini adapters
conform, but `AnthropicClient.ask_question` defaults `use_memory` to
`False` and `PersistentAnthropicClient.ask_with_persistent_session`
defaults both `maintain_history` and `use_memory` to `False` (contradicting
its own docstring's `default: True`).  Consequently
`AnthropicClient.ask_question(q)` with no keyword arguments performs NO
memory saves, while a `use_memory=True` call persists the question twice
and the answer once. -/
theorem C1_anthropic_defaults_diverge :
    anthropic_ask_question_defaults.use_memory = false
    ∧ anthropic_ask_question_defaults ≠ base_ask_question_defaults
    ∧ openai_ask_question_defaults = base_ask_question_defaults
    ∧ gemini_ask_question_defaults = base_ask_question_defaults
    ∧ anthropic_persistent_ask_defaults.maintain_history = false
    ∧ anthropic_persistent_ask_defaults.use_memory = false
    ∧ anthropic_persistent_ask_defaults ≠ base_persistent_ask_defaults
    ∧ openai_persistent_ask_defaults = base_persistent_ask_defaults
    ∧ gemini_persistent_ask_defaults = base_persistent_ask_defaults
    ∧ anthropic_ask_question_saves anthropic_ask_question_defaults.maintain_history
        anthropic_ask_question_defaults.use_memory
        anthropic_ask_question_defaults.load_from_memory
        "q".toList "a".toList (fun _ _ => .error []) [] = .ok []
    ∧ anthropic_ask_question_saves base_ask_question_defaults.maintain_history
        base_ask_question_defaults.use_memory
        base_ask_question_defaults.load_from_memory
        "q".toList "a".toList (fun _ _ => .error []) []
        = .ok [.userText "q".toList, .userText "q".toList, .assistantText "a".toList] := by
  refine ⟨rfl, by decide, by decide, by decide, rfl, rfl, by decide, by decide, by decide,
    ?_, ?_⟩
  · rfl
  · rfl

/-- C2 (code bug): `detect_provider` iterates `API_KEY_PATTERNS` in
dictionary insertion order, which lists OpenAI's `sk-`/`sk_` before
Anthropic's `sk-ant-`; every key starting with `sk-ant-` also starts with
`sk-`, so the Anthropic pattern can never fire and a `sk-ant-` key is
detected as OPENAI, contradicting the claimed `sk-ant- → Anthropic`.  The
`sk-`/`sk_` → OpenAI and `AI` → Gemini arms behave as claimed. -/
theorem C2_sk_ant_key_detected_as_openai :
    detect_provider ⟨none, [], "sk-ant-test".toList,
        "\x7b\x27LLM_API_KEY\x27: \x27sk-ant-test\x27\x7d".toList⟩ = .ok .openai
    ∧ detect_provider ⟨none, [], "sk-proj-123".toList,
        "\x7b\x27LLM_API_KEY\x27: \x27sk-proj-123\x27\x7d".toList⟩ = .ok .openai
    ∧ detect_provider ⟨none, [], "sk_test".toList,
        "\x7b\x27LLM_API_KEY\x27: \x27sk_test\x27\x7d".toList⟩ = .ok .openai
    ∧ detect_provider ⟨none, [], "AIzaSyTest".toList,
        "\x7b\x27LLM_API_KEY\x27: \x27AIzaSyTest\x27\x7d".toList⟩ = .ok .gemini := by
  exact ⟨rfl, rfl, rfl, rfl⟩

/-- C3 (counterexample): the Gemini `_execute_tool_calls` synthesizes
`response=\x7b"error": "Tool execution failed: <e>"\x7d` for a failing tool
call — the text does NOT begin with `Error`, falsifying the claim that
every provider's synthetic tool-result text begins with `Error`. -/
theorem C3_gemini_error_text_counterexample :
    gemini_execute_tool_calls (fun _ _ => .error "boom".toList) [⟨"fetch", Js.obj []⟩]
      = [⟨"fetch", .error ("Tool execution failed: boom".toList)⟩]
    ∧ startsWithL "Error".toList ("Tool execution failed: boom".toList) = false := by
  exact ⟨rfl, rfl⟩

/-- C3 (amended): in every provider's orchestration loop a tool-call
exception is never propagated — each call yields exactly one result block
(so the loop continues to the next send), and a failing call yields a
synthetic block in its place: text `"Error: <e>"` (beginning with `Error`)
for Anthropic, `"Error calling tool '<name>': <e>"` (beginning with
`Error`) for OpenAI, and a `function_response` carrying an `error` key
whose text `"Tool execution failed: <e>"` begins with
`Tool execution failed: ` for Gemini. -/
theorem C3_tool_errors_synthesized :
    (∀ callTool tubs, (anthropic_execute_tool_calls callTool tubs).length = tubs.length)
    ∧ (∀ callTool calls, (openai_execute_tool_calls callTool calls).length = calls.length)
    ∧ (∀ callTool calls, (gemini_execute_tool_calls callTool calls).length = calls.length)
    ∧ (∀ callTool (tub : ToolUseBlockM) rest e,
        callTool tub.name (anthropicArgs tub.input) = .error e →
        anthropic_execute_tool_calls callTool (tub :: rest)
          = ⟨tub.id, "Error: ".toList ++ e⟩ :: anthropic_execute_tool_calls callTool rest
        ∧ startsWithL "Error".toList ("Error: ".toList ++ e) = true)
    ∧ (∀ callTool (c : OpenAiToolCall) rest e, callTool c.name c.arguments = .error e →
        openai_execute_tool_calls callTool (c :: rest)
          = ⟨c.id, "Error calling tool \x27".toList ++ c.name.toList ++ "\x27: ".toList ++ e⟩
            :: openai_execute_tool_calls callTool rest
        ∧ startsWithL "Error".toList
            ("Error calling tool \x27".toList ++ c.name.toList ++ "\x27: ".toList ++ e) = true)
    ∧ (∀ callTool (c : GeminiFunctionCall) rest e,
        callTool c.name (geminiArgs c.args) = .error e →
        gemini_execute_tool_calls callTool (c :: rest)
          = ⟨c.name, .error ("Tool execution failed: ".toList ++ e)⟩
            :: gemini_execute_tool_calls callTool rest
        ∧ startsWithL "Tool execution failed: ".toList
            ("Tool execution failed: ".toList ++ e) = true) := by
  refine ⟨?_, ?_, ?_, ?_, ?_, ?_⟩
  · intro callTool tubs
    induction tubs with
    | nil => rfl
    | cons t r ih =>
      unfold anthropic_execute_tool_calls
      cases callTool t.name (anthropicArgs t.input) <;> simp [ih]
  · intro callTool calls
    induction calls with
    | nil => rfl
    | cons c r ih =>
      unfold openai_execute_tool_calls
      cases callTool c.name c.arguments <;> simp [ih]
  · intro callTool calls
    induction calls with
    | nil => rfl
    | cons c r ih =>
      unfold gemini_execute_tool_calls
      cases callTool c.name (geminiArgs c.args) <;> simp [ih]
  · intro callTool tub rest e hcall
    refine ⟨?_, ?_⟩
    · conv_lhs => rw [anthropic_execute_tool_calls]
      rw [hcall]
    · have hsplit : ("Error: ".toList : List Char) = "Error".toList ++ ": ".toList := rfl
      rw [hsplit, List.append_assoc, startsWithL_append]
  · intro callTool c rest e hcall
    refine ⟨?_, ?_⟩
    · conv_lhs => rw [openai_execute_tool_calls]
      rw [hcall]
    · have hsplit : ("Error calling tool \x27".toList : List Char)
          = "Error".toList ++ " calling tool \x27".toList := rfl
      rw [hsplit, List.append_assoc, List.append_assoc, List.append_assoc, startsWithL_append]
  · intro callTool c rest e hcall
    refine ⟨?_, ?_⟩
    · conv_lhs => rw [gemini_execute_tool_calls]
      rw [hcall]
    · rw [startsWithL_append]

/-- C3 witness: the amended theorem applied to one concrete failing call
per provider. -/
theorem C3_tool_errors_synthesized_witness :
    ((fun (_ : String) (_ : Js) => (.error "boom".toList : Except (List Char) CallToolResult))
        "fetch" (anthropicArgs (Js.obj [])) = .error "boom".toList)
    ∧ anthropic_execute_tool_calls (fun _ _ => .error "boom".toList)
        [⟨"t1", "fetch", Js.obj []⟩]
        = [⟨"t1", "Error: ".toList ++ "boom".toList⟩]
    ∧ startsWithL "Error".toList ("Error: ".toList ++ "boom".toList) = true := by
  refine ⟨rfl, ?_, ?_⟩
  · have h := (C3_tool_errors_synthesized.2.2.2.1
      (fun _ _ => .error "boom".toList) ⟨"t1", "fetch", Js.obj []⟩ [] "boom".toList rfl)
    exact h.1
  · exact (C3_tool_errors_synthesized.2.2.2.1
      (fun _ _ => .error "boom".toList) ⟨"t1", "fetch", Js.obj []⟩ [] "boom".toList rfl).2

/-- C4 (counterexample): the truncation is by Python string slicing
(characters, not bytes), and the Gemini client's ceiling is `1_000_000`,
not `100_000`: for a successful call whose reduced payload is 100_001
copies of the two-byte character é, the OpenAI client injects 100_000
characters = 200_000 UTF-8 bytes and the Gemini client injects all 100_001
characters = 200_002 bytes — both exceed the claimed 100_000-byte bound. -/
theorem C4_truncation_counterexample :
    openai_execute_tool_calls
        (fun _ _ => .ok ⟨.plist [.withText (List.replicate 100001 'é')], []⟩)
        [⟨"c1", "fetch", "\x7b\x7d".toList⟩]
      = [⟨"c1", List.replicate 100000 'é'⟩]
    ∧ 100000 < utf8Len (List.replicate 100000 'é')
    ∧ gemini_execute_tool_calls
        (fun _ _ => .ok ⟨.plist [.withText (List.replicate 100001 'é')], []⟩)
        [⟨"fetch", Js.obj []⟩]
      = [⟨"fetch", .result (List.replicate 100001 'é')⟩]
    ∧ 100000 < utf8Len (List.replicate 100001 'é') := by
  have hmin1 : (100000 ⊓ 100001 : Nat) = 100000 := by omega
  have hmin2 : (1000000 ⊓ 100001 : Nat) = 100001 := by omega
  have hsize : Char.utf8Size 'é' = 2 := rfl
  refine ⟨?_, ?_, ?_, ?_⟩
  · conv_lhs => rw [openai_execute_tool_calls, openai_execute_tool_calls]
    simp only [reducePayload, List.take_replicate, hmin1]
  · rw [utf8Len_replicate, hsize]
    omega
  · conv_lhs => rw [gemini_execute_tool_calls, gemini_execute_tool_calls]
    simp only [geminiReduce, toolPayloadTruthy, reducePayload, List.take_replicate,
      hmin2, List.isEmpty_cons, Bool.not_false, if_true]
  · rw [utf8Len_replicate, hsize]
    omega

/-- C4 (amended): for every successful tool invocation the OpenAI
orchestrator injects the first 100_000 CHARACTERS of the reduced payload,
the Gemini orchestrator the first 1_000_000 characters, and the Anthropic
orchestrator the payload untruncated; a payload of at most 100_000
characters passes through the OpenAI truncation unchanged. -/
theorem C4_truncation_amended :
    (∀ callTool (c : OpenAiToolCall) rest result, callTool c.name c.arguments = .ok result →
        openai_execute_tool_calls callTool (c :: rest)
          = ⟨c.id, (reducePayload result.content).take 100000⟩
            :: openai_execute_tool_calls callTool rest
        ∧ ((reducePayload result.content).take 100000).length ≤ 100000
        ∧ ((reducePayload result.content).length ≤ 100000 →
            (reducePayload result.content).take 100000 = reducePayload result.content))
    ∧ (∀ callTool (c : GeminiFunctionCall) rest result,
        callTool c.name (geminiArgs c.args) = .ok result →
        gemini_execute_tool_calls callTool (c :: rest)
          = ⟨c.name, .result ((geminiReduce result).take 1000000)⟩
            :: gemini_execute_tool_calls callTool rest
        ∧ ((geminiReduce result).take 1000000).length ≤ 1000000)
    ∧ (∀ callTool (tub : ToolUseBlockM) rest result,
        callTool tub.name (anthropicArgs tub.input) = .ok result →
        anthropic_execute_tool_calls callTool (tub :: rest)
          = ⟨tub.id, reducePayload result.content⟩
            :: anthropic_execute_tool_calls callTool rest) := by
  refine ⟨?_, ?_, ?_⟩
  · intro callTool c rest result hcall
    refine ⟨?_, ?_, ?_⟩
    · conv_lhs => rw [openai_execute_tool_calls]
      rw [hcall]
    · rw [List.length_take]
      omega
    · intro hle
      exact List.take_of_length_le hle
  · intro callTool c rest result hcall
    refine ⟨?_, ?_⟩
    · conv_lhs => rw [gemini_execute_tool_calls]
      rw [hcall]
    · rw [List.length_take]
      omega
  · intro callTool tub rest result hcall
    conv_lhs => rw [anthropic_execute_tool_calls]
    rw [hcall]

/-- C4 witness: the amended theorem applied to one concrete successful call
against the Anthropic orchestrator (whose payload is injected verbatim). -/
theorem C4_truncation_amended_witness :
    ((fun (_ : String) (_ : Js) =>
        (.ok ⟨.plist [.withText "42".toList], []⟩ : Except (List Char) CallToolResult))
      "fetch" (anthropicArgs (Js.obj []))
        = .ok ⟨.plist [.withText "42".toList], []⟩)
    ∧ anthropic_execute_tool_calls
        (fun _ _ => .ok ⟨.plist [.withText "42".toList], []⟩)
        [⟨"t1", "fetch", Js.obj []⟩]
      = [⟨"t1", reducePayload (ToolPayload.plist [.withText "42".toList])⟩] := by
  refine ⟨rfl, ?_⟩
  exact C4_truncation_amended.2.2
    (fun _ _ => .ok ⟨.plist [.withText "42".toList], []⟩)
    ⟨"t1", "fetch", Js.obj []⟩ [] ⟨.plist [.withText "42".toList], []⟩ rfl

/-- C5 (code bug): running `memory_save_message; memory_clear_session;
memory_save_message` on a fresh memory-enabled client persists the second
message for session `s1` while `get_session("s1")` on the underlying store
returns `None`: `memory_clear_session` deletes through the store directly
and never invalidates `SessionManager._active_sessions`, so the second
save's `ensure_session_exists` is satisfied by the stale cache entry and
the session is not re-created. -/
theorem C5_message_persisted_without_session :
    (((facadeRun (facadeInit "s1")
        [ .save "user" (.str "hi") none "m1" ⟨2026, 1, 1, 0, 0, 0, 0⟩ "g1",
          .clear,
          .save "user" (.str "again") none "m2" ⟨2026, 1, 1, 0, 0, 1, 0⟩ "g2" ]).store.messages.lookup
        "s1").getD []).map (fun m => m.session_id) = [some "s1"]
    ∧ (facadeRun (facadeInit "s1")
        [ .save "user" (.str "hi") none "m1" ⟨2026, 1, 1, 0, 0, 0, 0⟩ "g1",
          .clear,
          .save "user" (.str "again") none "m2" ⟨2026, 1, 1, 0, 0, 1, 0⟩ "g2" ]).store.get_session
        "s1" = none := by
  exact ⟨rfl, rfl⟩

/-- C6 (counterexample): the length limit of `_validate_question` is
checked on the whitespace-trimmed question, not on the raw input: the input
consisting of 100_000 `a`s followed by one space has 100_001 characters —
the claim as stated says it must be rejected — yet it is accepted (and
trimmed to 100_000 characters). -/
theorem C6_length_checked_after_trim_counterexample :
    100000 < (List.replicate 100000 'a' ++ [' ']).length
    ∧ validate_question (List.replicate 100000 'a' ++ [' '])
        = .ok (List.replicate 100000 'a') := by
  have h100000 : (100000 : Nat) = 99999 + 1 := by norm_num
  have hs : pyStrip (List.replicate 100000 'a' ++ [' ']) = List.replicate 100000 'a' := by
    rw [h100000]
    exact pyStrip_replicate_append_space (by decide)
  have hne0 : (List.replicate 100000 'a' ++ [' '] : List Char) ≠ [] := by
    rw [Ne, List.append_eq_nil]
    rintro ⟨-, h⟩
    cases h
  have hne : (List.replicate 100000 'a' : List Char) ≠ [] := by
    rw [Ne, List.replicate_eq_nil_iff]
    omega
  have hlen : ¬ ((List.replicate 100000 'a' : List Char).length > 100000) := by
    rw [List.length_replicate]
    omega
  have hcount : ¬ (0 < (List.replicate 100000 'a' : List Char).count '\x00') := by
    rw [List.count_replicate, show ('a' == '\x00') = false from rfl]
    simp
  refine ⟨?_, ?_⟩
  · rw [List.length_append, List.length_replicate]
    simp
  · unfold validate_question
    rw [hs]
    rw [if_neg hne0, if_neg hne, if_neg hlen, if_neg hcount]

/-- C6 (amended): `_validate_question` raises exactly when the
whitespace-trimmed input is empty, the input contains a null byte, or the
TRIMMED input exceeds 100_000 characters; an all-`a` input of length
exactly 100_000 is accepted and one of length 100_001 is rejected.  (The
non-string branch lies outside the string-typed embedding.) -/
theorem C6_validate_question_amended :
    (∀ q : List Char, (∃ e, validate_question q = .error e) ↔
        (pyStrip q = [] ∨ '\x00' ∈ q ∨ 100000 < (pyStrip q).length))
    ∧ validate_question (List.replicate 100000 'a') = .ok (List.replicate 100000 'a')
    ∧ (∃ e, validate_question (List.replicate 100001 'a') = .error e) := by
  refine ⟨validate_question_error_iff, validate_replicate_100000_ok, ?_⟩
  refine (validate_question_error_iff _).mpr (Or.inr (Or.inr ?_))
  rw [pyStrip_replicate (by decide), List.length_replicate]
  omega

/-- C7: on both stores, a successful `save_message(m)` extends the
unfiltered `get_conversation_history(m.session_id)` by exactly `[m]` at the
end — the history is in append order and its last element equals `m`.  The
`timestamp.Valid` bounds hold for every real `datetime` and are what the
file store's serialization round trip needs. -/
theorem C7_save_then_history_appends :
    ∀ (ims : InMemoryStore) (fs : FileMemoryStore) (m : UniversalMessage) (sid : String),
      m.session_id = some sid → sid ≠ "" → m.timestamp.Valid →
      ((ims.save_message m).2 = true
        ∧ (ims.save_message m).1.get_conversation_history sid none none none
            = ims.get_conversation_history sid none none none ++ [m]
        ∧ ((ims.save_message m).1.get_conversation_history sid none none none).getLast?
            = some m)
      ∧ ((fs.save_message m).2 = true
        ∧ (fs.save_message m).1.get_conversation_history sid none none none
            = fs.get_conversation_history sid none none none ++ [m]
        ∧ ((fs.save_message m).1.get_conversation_history sid none none none).getLast?
            = some m) := by
  intro ims fs m sid h1 h2 h3
  obtain ⟨ha, hb⟩ := inmem_save_history ims m sid h1 h2
  obtain ⟨hc, hd⟩ := file_save_history fs m sid h1 h2 h3
  refine ⟨⟨ha, hb, ?_⟩, ⟨hc, hd, ?_⟩⟩
  · rw [hb]
    exact List.getLast?_concat _
  · rw [hd]
    exact List.getLast?_concat _

/-- C7 witness: the theorem applied to empty stores and a concrete
message. -/
theorem C7_save_then_history_appends_witness :
    sampleMessage.session_id = some "s1" ∧ "s1" ≠ "" ∧ sampleMessage.timestamp.Valid
    ∧ ((InMemoryStore.empty.save_message sampleMessage).2 = true
      ∧ ((InMemoryStore.empty.save_message sampleMessage).1.get_conversation_history
          "s1" none none none).getLast? = some sampleMessage) := by
  have h := C7_save_then_history_appends InMemoryStore.empty ⟨[], []⟩ sampleMessage "s1"
    rfl (by decide) (by decide)
  exact ⟨rfl, by decide, by decide, h.1.1, h.1.2.2⟩

/-- C8: for every well-formed `UniversalMessage`,
`from_json(to_json(m)) = m`: the enum fields are stringified and parsed
back, the ISO-8601 timestamp round-trips, and every other field is
preserved (the JSON text codec of the Python standard library is modelled
as the identity on the JSON tree). -/
theorem C8_message_json_roundtrip (m : UniversalMessage) (h : m.timestamp.Valid) :
    UniversalMessage.from_json m.to_json = some m :=
  from_dict_to_dict m h

/-- C8 witness: the round trip evaluated on a concrete message. -/
theorem C8_message_json_roundtrip_witness :
    sampleMessage.timestamp.Valid
    ∧ UniversalMessage.from_json sampleMessage.to_json = some sampleMessage :=
  ⟨by decide, C8_message_json_roundtrip sampleMessage (by decide)⟩

/-- C9: the Anthropic adapter's effective system prompt follows the claimed
priority: a truthy config `system_prompt` wins; otherwise a string value
extracted from the software-statement JWT payload (looked up at
`system_prompt`, falling back to `systemPrompt` and the nested `claims`
keys), capped at 10_000 characters, is used; a malformed JWT (wrong number
of parts, decode failure), a non-dict payload or a non-string value yields
no extraction; and when nothing is extracted the default financial-analyst
prompt applies. -/
theorem C9_system_prompt_priority :
    (∀ (s : String) (ss : Option String) (decode : String → Except String Js),
        s.toList ≠ [] → anthropic_resolve_system_prompt (some s) ss decode = s.toList)
    ∧ (∀ (cfg : Option String) (ss : String) (decode : String → Except String Js)
        (p : List Char),
        (cfg.map String.toList).getD [] = [] →
        anthropic_extract_system_prompt_from_jwt ss decode = some p →
        anthropic_resolve_system_prompt cfg (some ss) decode = p ∧ p.length ≤ 10000)
    ∧ (∀ (cfg : Option String) (ss : Option String) (decode : String → Except String Js),
        (cfg.map String.toList).getD [] = [] →
        (∀ t, ss = some t → anthropic_extract_system_prompt_from_jwt t decode = none) →
        anthropic_resolve_system_prompt cfg ss decode = DEFAULT_FINANCIAL_SYSTEM_PROMPT)
    ∧ (∀ (t : String) (decode : String → Except String Js),
        (pySplit '.' t.toList).length ≠ 3 →
        anthropic_extract_system_prompt_from_jwt t decode = none)
    ∧ (∀ (t : String) (decode : String → Except String Js) (e : String),
        decode t = .error e → anthropic_extract_system_prompt_from_jwt t decode = none)
    ∧ (∀ (t : String) (decode : String → Except String Js) (kvs : List (String × Js)),
        decode t = .ok (.obj kvs) → (∀ s, jwtPayloadSystemPromptValue kvs ≠ .str s) →
        anthropic_extract_system_prompt_from_jwt t decode = none)
    ∧ (∀ (kvs : List (String × Js)) (s : String),
        jsGet kvs "system_prompt" = .str s → s ≠ "" →
        jwtPayloadSystemPromptValue kvs = .str s) :=
  ⟨resolve_config_wins, resolve_jwt_wins, resolve_default, extract_malformed,
    extract_decode_error, extract_non_string, jwt_top_key_wins⟩

/-- C9 witness: with no config prompt, a well-formed three-part JWT whose
payload carries a string `system_prompt` resolves to that string. -/
theorem C9_system_prompt_priority_witness :
    ((none : Option String).map String.toList).getD [] = []
    ∧ anthropic_extract_system_prompt_from_jwt "a.b.c"
        (fun _ => .ok (.obj [("system_prompt", .str "Be terse")]))
        = some "Be terse".toList
    ∧ anthropic_resolve_system_prompt none (some "a.b.c")
        (fun _ => .ok (.obj [("system_prompt", .str "Be terse")]))
        = "Be terse".toList := by
  have hext : anthropic_extract_system_prompt_from_jwt "a.b.c"
      (fun _ => .ok (.obj [("system_prompt", .str "Be terse")]))
      = some "Be terse".toList := by decide
  refine ⟨rfl, hext, ?_⟩
  exact (C9_system_prompt_priority.2.1 none "a.b.c"
    (fun _ => .ok (.obj [("system_prompt", .str "Be terse")]))
    "Be terse".toList rfl hext).1

/-- C10: with `maintain_history=False`, `use_memory=True` and memory
enabled, one `ask_question(question)` call persists the validated question
TWICE (once before branching, once in the no-history branch) plus one
assistant answer — exactly the save trace
`[user question, user question, assistant answer]`. -/
theorem C10_no_history_double_save :
    ∀ (question q answer : List Char) (load_from_memory : Bool)
      (callTool : String → Js → Except (List Char) CallToolResult)
      (script : List (List AnthropicBlock)),
      validate_question question = .ok q →
      anthropic_ask_question_saves false true load_from_memory question answer callTool script
        = .ok [.userText q, .userText q, .assistantText answer] := by
  intro question q answer lfm callTool script h
  unfold anthropic_ask_question_saves
  rw [h]
  rfl

/-- C10 witness: the trace evaluated on a concrete question. -/
theorem C10_no_history_double_save_witness :
    validate_question "hi".toList = .ok "hi".toList
    ∧ anthropic_ask_question_saves false true true "hi".toList "yes".toList
        (fun _ _ => .error []) []
        = .ok [.userText "hi".toList, .userText "hi".toList,
               .assistantText "yes".toList] := by
  refine ⟨rfl, ?_⟩
  exact C10_no_history_double_save "hi".toList "hi".toList "yes".toList true
    (fun _ _ => .error []) [] rfl
